import Mathlib

set_option maxHeartbeats 1000000

namespace LightFlow

/-- JSON values as handled by the serde_json library used in
src-tauri/src/lib.rs. Numbers are modelled as integers, which covers every
numeric field the program reads or writes (`created : u64`, `index : u32`). -/
inductive Json where
  | null
  | bool (b : Bool)
  | num (n : Int)
  | str (s : String)
  | arr (elems : List Json)
  | obj (fields : List (String × Json))

/-- A conversation message (`Message` in lib.rs): a role and a content value
that may be a plain string or a structured multimodal value, passed through
uninterpreted. -/
structure Message where
  role : String
  content : Json

/-- Serde serialization of `Message`: an object with the fields in declaration
order. -/
def Message.toJson (m : Message) : Json :=
  .obj [("role", .str m.role), ("content", m.content)]

/-- Struct `ResponseMessage` in lib.rs. -/
structure ResponseMessage where
  role : String
  content : String
  reasoning_content : Option String
deriving DecidableEq

/-- Struct `Choice` in lib.rs; `index` is a `u32`, modelled as a bounded `Nat`. -/
structure Choice where
  index : Nat
  message : ResponseMessage
  finish_reason : Option String
deriving DecidableEq

/-- Struct `ChatResponse` in lib.rs, the blocking-mode response schema. -/
structure ChatResponse where
  id : String
  object : String
  created : Nat
  model : String
  choices : List Choice
deriving DecidableEq

/-- Struct `StreamDelta` in lib.rs. -/
structure StreamDelta where
  role : Option String
  content : Option String
  reasoning_content : Option String
deriving DecidableEq

/-- Struct `StreamChoice` in lib.rs. -/
structure StreamChoice where
  index : Nat
  delta : StreamDelta
  finish_reason : Option String
deriving DecidableEq

/-- Struct `StreamChunk` in lib.rs, the schema of one streaming SSE event. -/
structure StreamChunk where
  id : String
  object : String
  created : Nat
  model : String
  choices : List StreamChoice
deriving DecidableEq

/-- Struct `StreamData` in lib.rs, the normalized update emitted to the host
application via the `stream-chunk` event. -/
structure StreamData where
  content : Option String
  reasoning_content : Option String
  done : Bool
deriving DecidableEq

/-- Field lookup in a serde_json object. -/
def Json.field (kvs : List (String × Json)) (k : String) : Option Json :=
  List.lookup k kvs

/-- Serde deserialization of a required `String` field: missing or
wrongly-typed fields are errors. -/
def Json.asStr (k : String) : Option Json → Except String String
  | some (.str s) => .ok s
  | some _ => .error ("invalid type: field " ++ k)
  | none => .error ("missing field " ++ k)

/-- Serde deserialization of a required `u64` field. -/
def Json.asU64 (k : String) : Option Json → Except String Nat
  | some (.num n) =>
    if 0 ≤ n ∧ n < 2 ^ 64 then .ok n.toNat else .error ("invalid value: field " ++ k)
  | some _ => .error ("invalid type: field " ++ k)
  | none => .error ("missing field " ++ k)

/-- Serde deserialization of a required `u32` field. -/
def Json.asU32 (k : String) : Option Json → Except String Nat
  | some (.num n) =>
    if 0 ≤ n ∧ n < 2 ^ 32 then .ok n.toNat else .error ("invalid value: field " ++ k)
  | some _ => .error ("invalid type: field " ++ k)
  | none => .error ("missing field " ++ k)

/-- Serde deserialization of a required array field. -/
def Json.asArr (k : String) : Option Json → Except String (List Json)
  | some (.arr xs) => .ok xs
  | some _ => .error ("invalid type: field " ++ k)
  | none => .error ("missing field " ++ k)

/-- Serde deserialization of an `Option<String>` field: a missing field or an
explicit null is `none`; any other non-string value is an error. -/
def Json.asOptStr (k : String) : Option Json → Except String (Option String)
  | some (.str s) => .ok (some s)
  | some .null => .ok none
  | some _ => .error ("invalid type: field " ++ k)
  | none => .ok none

/-- Serde `Deserialize` for `ResponseMessage`: `role` and `content` are
required strings, `reasoning_content` is optional. -/
def ResponseMessage.fromJson : Json → Except String ResponseMessage
  | .obj kvs => do
    let role ← Json.asStr "role" (Json.field kvs "role")
    let content ← Json.asStr "content" (Json.field kvs "content")
    let rc ← Json.asOptStr "reasoning_content" (Json.field kvs "reasoning_content")
    pure ⟨role, content, rc⟩
  | _ => .error "invalid type: expected struct ResponseMessage"

/-- Serde `Deserialize` for `Choice`: `index` and `message` are required,
`finish_reason` is optional. -/
def Choice.fromJson : Json → Except String Choice
  | .obj kvs => do
    let index ← Json.asU32 "index" (Json.field kvs "index")
    let message ← match Json.field kvs "message" with
      | some j => ResponseMessage.fromJson j
      | none => .error "missing field message"
    let fr ← Json.asOptStr "finish_reason" (Json.field kvs "finish_reason")
    pure ⟨index, message, fr⟩
  | _ => .error "invalid type: expected struct Choice"

/-- Serde `Deserialize` for `ChatResponse`: `id`, `object`, `created`, `model`
and `choices` are all required. -/
def ChatResponse.fromJson : Json → Except String ChatResponse
  | .obj kvs => do
    let id ← Json.asStr "id" (Json.field kvs "id")
    let object ← Json.asStr "object" (Json.field kvs "object")
    let created ← Json.asU64 "created" (Json.field kvs "created")
    let model ← Json.asStr "model" (Json.field kvs "model")
    let choicesJson ← Json.asArr "choices" (Json.field kvs "choices")
    let choices ← choicesJson.mapM Choice.fromJson
    pure ⟨id, object, created, model, choices⟩
  | _ => .error "invalid type: expected struct ChatResponse"

/-- The request body constructed identically by both commands
(lib.rs lines 92-107 and 148-163): a JSON object with `model`, `messages`,
`stream`, and a `thinking` object whose `type` is `"enabled"` when
`enable_deep_thinking` holds and `"disabled"` otherwise. -/
def buildRequestBody (model : String) (messages : List Message) (stream : Bool)
    (enable_deep_thinking : Bool) : Json :=
  .obj [("model", .str model),
        ("messages", .arr (messages.map Message.toJson)),
        ("stream", .bool stream),
        ("thinking", .obj [("type", .str (if enable_deep_thinking then "enabled" else "disabled"))])]

/-- Abstraction of the reqwest response the commands consume: the
status-success test, the best-effort body text (`none` when the body read
fails), the body parsed as JSON (blocking mode), and the byte-stream
fragments, each read yielding a fragment or a read error (streaming mode). -/
structure HttpResponse where
  success : Bool
  bodyText : Option String
  bodyJson : Except String Json
  fragments : List (Except String String)

/-- Splitting a character list at every newline character. -/
def splitOnNewline : List Char → List (List Char)
  | [] => [[]]
  | c :: cs =>
    let r := splitOnNewline cs
    if c = '\n' then [] :: r
    else
      match r with
      | [] => [[c]]
      | l :: ls => (c :: l) :: ls

/-- Whether the second string is an initial segment of the first. -/
def listIsInit (s p : List Char) : Bool :=
  match s, p with
  | _, [] => true
  | [], _ :: _ => false
  | c :: cs, q :: qs => c = q && listIsInit cs qs

/-- The Rust test `line.starts_with(p)`. -/
def strStartsWith (s p : String) : Bool :=
  listIsInit s.toList p.toList

/-- The Rust slice `&line[n..]` for an ASCII head, dropping the first `n` characters. -/
def strDrop (s : String) (n : Nat) : String :=
  String.mk (s.toList.drop n)

/-- The Rust iterator `str::lines()`: split on a newline, strip one trailing carriage
return per line, and do not produce a final empty line when the string ends
with a newline. -/
def rustLines (s : String) : List String :=
  let raw := splitOnNewline s.toList
  let raw := if raw.getLast? = some [] then raw.dropLast else raw
  raw.map (fun l => String.mk (if l.getLast? = some '\r' then l.dropLast else l))

/-- Processing of one line of a fragment (lib.rs lines 191-219): the list of
updates emitted for that line, and whether the command returns (`[DONE]`
observed). The `parse` argument abstracts
`serde_json::from_str::<StreamChunk>`. -/
def processLine (parse : String → Option StreamChunk) (line : String) :
    List StreamData × Bool :=
  if strStartsWith line "data: " then
    let data := strDrop line 6
    if data = "[DONE]" then
      ([⟨none, none, true⟩], true)
    else
      match parse data with
      | some json =>
        match json.choices.head? with
        | some choice => ([⟨choice.delta.content, choice.delta.reasoning_content, false⟩], false)
        | none => ([], false)
      | none => ([], false)
  else ([], false)

/-- Processing of the lines of one fragment in order, stopping at the first
line that returns (the `return Ok(())` on lib.rs line 204 exits the whole
command). -/
def processLines (parse : String → Option StreamChunk) :
    List String → List StreamData × Bool
  | [] => ([], false)
  | line :: rest =>
    let r := processLine parse line
    if r.2 then (r.1, true)
    else
      let r2 := processLines parse rest
      (r.1 ++ r2.1, r2.2)

/-- How the body-consumption loop of a streaming call finishes: `done` is the
`return Ok(())` after `[DONE]` (lib.rs line 204), `ended` is the fall-through
`Ok(())` when the fragment stream ends (line 223), `failed` is the early
return on a fragment read error (line 188). -/
inductive StreamOutcome where
  | done
  | ended
  | failed (msg : String)
deriving DecidableEq

/-- The body-consumption loop of `chat_completions_stream`
(lib.rs lines 187-223): each fragment is decoded and split into lines
independently — no text is carried over from one fragment to the next — and
the updates emitted before a read error remain emitted. -/
def streamBody (parse : String → Option StreamChunk) :
    List (Except String String) → List StreamData × StreamOutcome
  | [] => ([], .ended)
  | .error e :: _ => ([], .failed ("Failed to read chunk: " ++ e))
  | .ok f :: fs =>
    let r := processLines parse (rustLines f)
    if r.2 then (r.1, .done)
    else
      let r2 := streamBody parse fs
      (r.1 ++ r2.1, r2.2)

/-- The `Result<(), String>` value `chat_completions_stream` returns for each
loop outcome: both `done` and `ended` return `Ok(())`. -/
def streamResult : StreamOutcome → Except String Unit
  | .done => .ok ()
  | .ended => .ok ()
  | .failed m => .error m

/-- Blocking-mode body decoding (lib.rs lines 128-131):
`response.json::<ChatResponse>()` is JSON parsing followed by schema
deserialization. -/
def decodeBody (response : HttpResponse) : Except String ChatResponse :=
  response.bodyJson.bind ChatResponse.fromJson

/-- The `chat_completions` command (lib.rs lines 82-134). The network is
abstracted by `send`, mapping the constructed request body to the transport
outcome. -/
def chat_completions (model : String) (messages : List Message)
    (enable_deep_thinking : Bool)
    (send : Json → Except String HttpResponse) : Except String ChatResponse :=
  let request_body := buildRequestBody model messages false enable_deep_thinking
  match send request_body with
  | .error e => .error ("Failed to send request: " ++ e)
  | .ok response =>
    if !response.success then
      .error ("API Error: " ++ response.bodyText.getD "Unknown error")
    else
      match decodeBody response with
      | .error e => .error ("Failed to parse response: " ++ e)
      | .ok result => .ok result

/-- The `chat_completions_stream` command (lib.rs lines 137-224): the list of
updates emitted through the `stream-chunk` event in order, paired with the
returned `Result` of the command. -/
def chat_completions_stream (model : String) (messages : List Message)
    (enable_deep_thinking : Bool)
    (parse : String → Option StreamChunk)
    (send : Json → Except String HttpResponse) :
    List StreamData × Except String Unit :=
  let request_body := buildRequestBody model messages true enable_deep_thinking
  match send request_body with
  | .error e => ([], .error ("Failed to send request: " ++ e))
  | .ok response =>
    if !response.success then
      ([], .error ("API Error: " ++ response.bodyText.getD "Unknown error"))
    else
      let r := streamBody parse response.fragments
      (r.1, streamResult r.2)

/-- Number of occurrences of a key in the field list of a JSON object. -/
def countKey (kvs : List (String × Json)) (k : String) : Nat :=
  (kvs.filter (fun kv => kv.1 == k)).length

/-- A parse function that rejects every payload; used to instantiate the
abstract `serde_json::from_str` on inputs that are not valid JSON. -/
def parseNone : String → Option StreamChunk := fun _ => none

/-- The terminal update emitted on `[DONE]` (lib.rs lines 198-202). -/
def terminalUpdate : StreamData := ⟨none, none, true⟩

/-- A concrete stream chunk whose first choice carries a content delta. -/
def chunkHel : StreamChunk :=
  ⟨"c1", "chat.completion.chunk", 1, "glm-4", [⟨0, ⟨some "assistant", some "Hel", none⟩, none⟩]⟩

/-- A parse function that accepts every payload as `chunkHel`. -/
def parseConst : String → Option StreamChunk := fun _ => some chunkHel

/-- A concrete stream chunk whose first choice carries a role-only delta:
neither `content` nor `reasoning_content` is present. -/
def chunkRoleOnly : StreamChunk :=
  ⟨"c2", "chat.completion.chunk", 1, "glm-4", [⟨0, ⟨some "assistant", none, none⟩, none⟩]⟩

/-- A parse function that accepts every payload as `chunkRoleOnly`. -/
def parseRoleOnly : String → Option StreamChunk := fun _ => some chunkRoleOnly

/-- A blocking-mode response body carrying every required field and omitting
the optional `finish_reason` and `reasoning_content`. -/
def bodyMinimal : Json :=
  .obj [("id", .str "resp-1"), ("object", .str "chat.completion"),
        ("created", .num 1700000000), ("model", .str "glm-4"),
        ("choices", .arr [.obj [("index", .num 0),
          ("message", .obj [("role", .str "assistant"), ("content", .str "hi")])]])]

/-- Body `bodyMinimal` with the `object` field omitted. -/
def bodyNoObject : Json :=
  .obj [("id", .str "resp-1"),
        ("created", .num 1700000000), ("model", .str "glm-4"),
        ("choices", .arr [.obj [("index", .num 0),
          ("message", .obj [("role", .str "assistant"), ("content", .str "hi")])]])]

/-- Body `bodyMinimal` with the timestamp field named `created_at` instead of
`created`. -/
def bodyCreatedAt : Json :=
  .obj [("id", .str "resp-1"), ("object", .str "chat.completion"),
        ("created_at", .num 1700000000), ("model", .str "glm-4"),
        ("choices", .arr [.obj [("index", .num 0),
          ("message", .obj [("role", .str "assistant"), ("content", .str "hi")])]])]

/-- The decoded value of `bodyMinimal`. -/
def minimalResponse : ChatResponse :=
  ⟨"resp-1", "chat.completion", 1700000000, "glm-4", [⟨0, ⟨"assistant", "hi", none⟩, none⟩]⟩

theorem processLine_cases (parse : String → Option StreamChunk) (line : String) :
    processLine parse line = ([terminalUpdate], true) ∨
    ((processLine parse line).2 = false ∧
      ∀ u ∈ (processLine parse line).1, u.done = false) := by
  unfold processLine
  by_cases h1 : strStartsWith line "data: " = true
  · by_cases h2 : strDrop line 6 = "[DONE]"
    · left
      simp [h1, h2, terminalUpdate]
    · right
      cases hp : parse (strDrop line 6) with
      | none => simp [h1, h2, hp]
      | some json =>
        cases hh : json.choices.head? with
        | none => simp [h1, h2, hp, hh]
        | some choice => simp [h1, h2, hp, hh]
  · right
    simp [h1]

theorem processLine_done (parse : String → Option StreamChunk) (line : String)
    (h1 : strStartsWith line "data: " = true) (h2 : strDrop line 6 = "[DONE]") :
    processLine parse line = ([terminalUpdate], true) := by
  simp [processLine, h1, h2, terminalUpdate]

theorem processLine_skip (parse : String → Option StreamChunk) (line : String)
    (h1 : strStartsWith line "data: " = true) (h2 : strDrop line 6 ≠ "[DONE]")
    (h3 : parse (strDrop line 6) = none) :
    processLine parse line = ([], false) := by
  simp [processLine, h1, h2, h3]

theorem processLines_append (parse : String → Option StreamChunk) (l1 l2 : List String) :
    processLines parse (l1 ++ l2) =
      if (processLines parse l1).2 then processLines parse l1
      else ((processLines parse l1).1 ++ (processLines parse l2).1,
            (processLines parse l2).2) := by
  induction l1 with
  | nil => simp [processLines]
  | cons a l ih =>
    simp only [List.cons_append, processLines]
    by_cases h : (processLine parse a).2 = true
    · simp [h]
    · simp only [Bool.not_eq_true] at h
      by_cases h2 : (processLines parse l).2 = true
      · simp [h, h2, ih]
      · simp only [Bool.not_eq_true] at h2
        simp [h, h2, ih, List.append_assoc]

theorem processLines_shape (parse : String → Option StreamChunk) (ls : List String) :
    ((processLines parse ls).2 = true →
      ∃ pre, (processLines parse ls).1 = pre ++ [terminalUpdate] ∧
        ∀ u ∈ pre, u.done = false) ∧
    ((processLines parse ls).2 = false →
      ∀ u ∈ (processLines parse ls).1, u.done = false) := by
  induction ls with
  | nil => simp [processLines]
  | cons a l ih =>
    simp only [processLines]
    rcases processLine_cases parse a with hstop | ⟨hns, hall⟩
    · rw [hstop]
      constructor
      · intro _
        exact ⟨[], by simp⟩
      · intro hcontra
        simp at hcontra
    · simp only [hns, Bool.false_eq_true, if_false]
      constructor
      · intro h2
        obtain ⟨pre, hpre, hpredone⟩ := ih.1 h2
        refine ⟨(processLine parse a).1 ++ pre, by simp [hpre], ?_⟩
        intro u hu
        rcases List.mem_append.mp hu with h | h
        · exact hall u h
        · exact hpredone u h
      · intro h2
        intro u hu
        rcases List.mem_append.mp hu with h | h
        · exact hall u h
        · exact ih.2 h2 u h

theorem streamBody_append (parse : String → Option StreamChunk)
    (fs1 fs2 : List (Except String String))
    (h : (streamBody parse fs1).2 = .ended) :
    streamBody parse (fs1 ++ fs2) =
      ((streamBody parse fs1).1 ++ (streamBody parse fs2).1,
       (streamBody parse fs2).2) := by
  induction fs1 with
  | nil => simp [streamBody]
  | cons a fs ih =>
    cases a with
    | error e => simp [streamBody] at h
    | ok f =>
      simp only [streamBody] at h
      by_cases h2 : (processLines parse (rustLines f)).2 = true
      · simp [h2] at h
      · simp only [Bool.not_eq_true] at h2
        simp only [h2, Bool.false_eq_true, if_false] at h
        simp only [List.cons_append, streamBody, h2, Bool.false_eq_true, if_false]
        simp [ih h, List.append_assoc]

theorem streamBody_shape (parse : String → Option StreamChunk)
    (fs : List (Except String String)) :
    ((streamBody parse fs).2 = .done →
      ∃ pre, (streamBody parse fs).1 = pre ++ [terminalUpdate] ∧
        ∀ u ∈ pre, u.done = false) ∧
    ((streamBody parse fs).2 ≠ .done →
      ∀ u ∈ (streamBody parse fs).1, u.done = false) := by
  induction fs with
  | nil => simp [streamBody]
  | cons a fs ih =>
    cases a with
    | error e => simp [streamBody]
    | ok f =>
      simp only [streamBody]
      by_cases h2 : (processLines parse (rustLines f)).2 = true
      · simp only [h2, if_true]
        constructor
        · intro _
          exact (processLines_shape parse (rustLines f)).1 h2
        · intro hc
          exact absurd rfl hc
      · simp only [Bool.not_eq_true] at h2
        simp only [h2, Bool.false_eq_true, if_false]
        have hall := (processLines_shape parse (rustLines f)).2 h2
        constructor
        · intro hdone
          obtain ⟨pre, hpre, hd⟩ := ih.1 hdone
          refine ⟨(processLines parse (rustLines f)).1 ++ pre, by simp [hpre], ?_⟩
          intro u hu
          rcases List.mem_append.mp hu with h | h
          · exact hall u h
          · exact hd u h
        · intro hnd u hu
          rcases List.mem_append.mp hu with h | h
          · exact hall u h
          · exact ih.2 hnd u h

theorem exceptBind_ok {α β : Type} {x : Except String α} {f : α → Except String β} {b : β}
    (h : (x >>= f) = .ok b) : ∃ a, x = .ok a ∧ f a = .ok b := by
  cases x with
  | error e => exact absurd h (by simp [Bind.bind, Except.bind])
  | ok a => exact ⟨a, rfl, h⟩

theorem asStr_isSome {k : String} {o : Option Json} {s : String}
    (h : Json.asStr k o = .ok s) : o.isSome := by
  cases o with
  | none => simp [Json.asStr] at h
  | some j => rfl

theorem asU64_isSome {k : String} {o : Option Json} {n : Nat}
    (h : Json.asU64 k o = .ok n) : o.isSome := by
  cases o with
  | none => simp [Json.asU64] at h
  | some j => rfl

theorem asU32_isSome {k : String} {o : Option Json} {n : Nat}
    (h : Json.asU32 k o = .ok n) : o.isSome := by
  cases o with
  | none => simp [Json.asU32] at h
  | some j => rfl

theorem asArr_isSome {k : String} {o : Option Json} {xs : List Json}
    (h : Json.asArr k o = .ok xs) : o.isSome := by
  cases o with
  | none => simp [Json.asArr] at h
  | some j => rfl

/-- C1: the claim says a `data:` line split across two byte fragments is
reassembled and emitted exactly once. The code (lib.rs lines 187-221) splits
each fragment into lines independently and keeps no buffer across reads:
delivering the payload `"data: [DONE]\n"` as one fragment emits the terminal
update and stops, while delivering the same bytes as the two fragments
`"data: [DO"` and `"NE]\n"` emits nothing and never observes the sentinel.
The abstract parse is instantiated with `parseNone` because neither `"[DO"`
nor `"NE]"` (the payloads the split produces; the second line does not even
carry the `data: ` prefix) is valid JSON, so any real parse rejects them. -/
theorem c1_fragment_split_divergence :
    streamBody parseNone [.ok "data: [DONE]\n"] = ([terminalUpdate], .done) ∧
    streamBody parseNone [.ok "data: [DO", .ok "NE]\n"] = ([], .ended) ∧
    (streamBody parseNone [.ok "data: [DONE]\n"]).1 ≠
      (streamBody parseNone [.ok "data: [DO", .ok "NE]\n"]).1 := by
  refine ⟨rfl, rfl, by decide⟩

/-- C2: once a `data: [DONE]` line is processed, the terminal update is
emitted and the command returns at once (lib.rs lines 194-204): the updates
are exactly those of the earlier fragments, plus those of the earlier lines of
the current fragment, plus the single terminal update — the remaining lines
`ls2` of the fragment and the remaining fragments `fs2` do not occur in the
result at all. -/
theorem c2_done_terminates (parse : String → Option StreamChunk)
    (fs1 fs2 : List (Except String String)) (f : String) (ls1 ls2 : List String)
    (hpre : (streamBody parse fs1).2 = .ended)
    (hf : rustLines f = ls1 ++ "data: [DONE]" :: ls2)
    (hls : (processLines parse ls1).2 = false) :
    streamBody parse (fs1 ++ .ok f :: fs2) =
      ((streamBody parse fs1).1 ++ (processLines parse ls1).1 ++ [terminalUpdate],
       .done) := by
  rw [streamBody_append parse fs1 (.ok f :: fs2) hpre]
  have hline : processLines parse ("data: [DONE]" :: ls2) = ([terminalUpdate], true) := by
    have hd := processLine_done parse "data: [DONE]" (by decide) (by decide)
    simp [processLines, hd]
  have hpl : processLines parse (rustLines f) =
      ((processLines parse ls1).1 ++ [terminalUpdate], true) := by
    rw [hf, processLines_append]
    simp [hls, hline]
  have hsb : streamBody parse (Except.ok f :: fs2) =
      ((processLines parse ls1).1 ++ [terminalUpdate], .done) := by
    simp [streamBody, hpl]
  rw [hsb]
  simp [List.append_assoc]

theorem c2_done_terminates_witness :
    streamBody parseNone
      [Except.ok "data: junk\ndata: [DONE]\ndata: more\n", Except.ok "data: later\n"] =
      ([terminalUpdate], StreamOutcome.done) :=
  c2_done_terminates parseNone [] [Except.ok "data: later\n"]
    "data: junk\ndata: [DONE]\ndata: more\n" ["data: junk"] ["data: more"] rfl rfl rfl

/-- C3 counterexample: the claim says every streaming call that completes
successfully emits exactly one terminal update. A call whose fragment stream
ends without `[DONE]` falls through the loop and returns `Ok(())`
(lib.rs line 223) having emitted no update at all — a successful call with
zero terminal updates. -/
theorem c3_counterexample :
    chat_completions_stream "glm-4" [] false parseNone
      (fun _ => .ok ⟨true, none, .error "streaming body", []⟩) =
      ([], .ok ()) := rfl

/-- C3 (amended): every streaming call emits at most one terminal update;
when one is emitted it is the last update, carries both delta fields absent,
nothing follows it, and the call returns success — but a call may also return
success with no terminal update when the fragment stream ends before
`[DONE]`. -/
theorem c3_terminal_at_most_once (model : String) (messages : List Message)
    (enable : Bool) (parse : String → Option StreamChunk)
    (send : Json → Except String HttpResponse) :
    (∃ pre, (chat_completions_stream model messages enable parse send).1 =
        pre ++ [terminalUpdate] ∧ (∀ u ∈ pre, u.done = false) ∧
        (chat_completions_stream model messages enable parse send).2 = .ok ()) ∨
    (∀ u ∈ (chat_completions_stream model messages enable parse send).1,
        u.done = false) := by
  cases hs : send (buildRequestBody model messages true enable) with
  | error e =>
    right
    simp [chat_completions_stream, hs]
  | ok response =>
    by_cases hsucc : response.success = true
    · have hstep : chat_completions_stream model messages enable parse send =
          ((streamBody parse response.fragments).1,
           streamResult (streamBody parse response.fragments).2) := by
        simp [chat_completions_stream, hs, hsucc]
      rw [hstep]
      cases hoc : (streamBody parse response.fragments).2 with
      | done =>
        left
        obtain ⟨pre, hpre, hd⟩ := (streamBody_shape parse response.fragments).1 hoc
        exact ⟨pre, hpre, hd, by simp [hoc, streamResult]⟩
      | ended =>
        right
        exact (streamBody_shape parse response.fragments).2 (by simp [hoc])
      | failed m =>
        right
        exact (streamBody_shape parse response.fragments).2 (by simp [hoc])
    · simp only [Bool.not_eq_true] at hsucc
      right
      simp [chat_completions_stream, hs, hsucc]

theorem c3_terminal_at_most_once_witness :
    (∃ pre, (chat_completions_stream "glm-4" [] false parseNone
        (fun _ => Except.ok ⟨true, none, .error "streaming body",
          [Except.ok "data: [DONE]\n"]⟩)).1 = pre ++ [terminalUpdate] ∧
        (∀ u ∈ pre, u.done = false) ∧
        (chat_completions_stream "glm-4" [] false parseNone
        (fun _ => Except.ok ⟨true, none, .error "streaming body",
          [Except.ok "data: [DONE]\n"]⟩)).2 = .ok ()) ∨
    (∀ u ∈ (chat_completions_stream "glm-4" [] false parseNone
        (fun _ => Except.ok ⟨true, none, .error "streaming body",
          [Except.ok "data: [DONE]\n"]⟩)).1, u.done = false) :=
  c3_terminal_at_most_once "glm-4" [] false parseNone
    (fun _ => Except.ok ⟨true, none, .error "streaming body", [Except.ok "data: [DONE]\n"]⟩)

/-- C4: a `data:` line whose payload fails to parse as a `StreamChunk` is
silently discarded (the `if let Ok` on lib.rs line 207 has no else branch):
processing the lines with the malformed line inserted anywhere equals
processing them without it — no update is lost or reordered, later valid
lines included, and no error value exists on this path (the loop body cannot
fail, as the result type shows). -/
theorem c4_malformed_line_skipped (parse : String → Option StreamChunk)
    (pre suf : List String) (line : String)
    (h1 : strStartsWith line "data: " = true)
    (h2 : strDrop line 6 ≠ "[DONE]")
    (h3 : parse (strDrop line 6) = none) :
    processLines parse (pre ++ line :: suf) = processLines parse (pre ++ suf) := by
  have hline : processLine parse line = ([], false) := processLine_skip parse line h1 h2 h3
  have hsingle : processLines parse (line :: suf) = processLines parse suf := by
    simp [processLines, hline]
  rw [processLines_append parse pre (line :: suf), processLines_append parse pre suf,
    hsingle]

theorem c4_malformed_line_skipped_witness :
    processLines parseNone ["", "data: not-json", "data: [DONE]"] =
      processLines parseNone ["", "data: [DONE]"] :=
  c4_malformed_line_skipped parseNone [""] ["data: [DONE]"] "data: not-json"
    (by decide) (by decide) rfl

/-- C5: for every model, message list, stream flag and reasoning flag, the
request body both commands construct (lib.rs lines 92-107 and 148-163)
contains the key `thinking` exactly once, bound to an object whose `type` is
`"enabled"` exactly when the reasoning flag is set and `"disabled"`
otherwise — never both, never absent. -/
theorem c5_thinking_always_present (model : String) (messages : List Message)
    (stream enable_deep_thinking : Bool) :
    ∃ kvs, buildRequestBody model messages stream enable_deep_thinking = .obj kvs ∧
      countKey kvs "thinking" = 1 ∧
      Json.field kvs "thinking" =
        some (.obj [("type", .str (if enable_deep_thinking then "enabled" else "disabled"))]) ∧
      ((if enable_deep_thinking then "enabled" else "disabled") = "enabled" ↔
        enable_deep_thinking = true) := by
  refine ⟨_, rfl, by simp [countKey, List.filter], by simp [Json.field, List.lookup], ?_⟩
  cases enable_deep_thinking <;> simp

/-- C6: when the transport returns a response whose HTTP status is not a
success, both commands fail with an `API Error:` message that carries the
full response body text verbatim, or the fixed placeholder `Unknown error`
when reading the body failed (lib.rs lines 120-126 and 176-182); the
equality also shows a single attempt with no retry — the result is determined
by that one response. -/
theorem c6_api_error_carries_body (model : String) (messages : List Message)
    (enable : Bool) (parse : String → Option StreamChunk)
    (send : Json → Except String HttpResponse) (resp : HttpResponse)
    (hsend : ∀ b, send b = .ok resp) (hfail : resp.success = false) :
    chat_completions model messages enable send =
      .error ("API Error: " ++ resp.bodyText.getD "Unknown error") ∧
    chat_completions_stream model messages enable parse send =
      ([], .error ("API Error: " ++ resp.bodyText.getD "Unknown error")) := by
  constructor
  · simp [chat_completions, hsend, hfail]
  · simp [chat_completions_stream, hsend, hfail]

theorem c6_api_error_carries_body_witness :
    (chat_completions "glm-4" [] false
      (fun _ => Except.ok ⟨false, some "rate limited", .error "no body", []⟩) =
      .error "API Error: rate limited") ∧
    (chat_completions_stream "glm-4" [] false parseNone
      (fun _ => Except.ok ⟨false, some "rate limited", .error "no body", []⟩) =
      ([], .error "API Error: rate limited")) :=
  c6_api_error_carries_body "glm-4" [] false parseNone
    (fun _ => Except.ok ⟨false, some "rate limited", .error "no body", []⟩)
    ⟨false, some "rate limited", .error "no body", []⟩ (fun _ => rfl) rfl

/-- C7: on a successful HTTP status, the blocking command decodes the body as
a `ChatResponse` (lib.rs lines 128-133): a decode failure yields a
`Failed to parse response:` error carrying the underlying cause — never a
default value — and a well-formed body yields exactly the decoded value. -/
theorem c7_decode_error_not_default (model : String) (messages : List Message)
    (enable : Bool) (send : Json → Except String HttpResponse)
    (resp : HttpResponse)
    (hsend : ∀ b, send b = .ok resp) (hok : resp.success = true) :
    (∀ e, decodeBody resp = .error e →
      chat_completions model messages enable send =
        .error ("Failed to parse response: " ++ e)) ∧
    (∀ r, decodeBody resp = .ok r →
      chat_completions model messages enable send = .ok r) := by
  constructor <;> intro x hx <;> simp [chat_completions, hsend, hok, hx]

theorem c7_decode_error_not_default_witness :
    (chat_completions "glm-4" [] false
      (fun _ => Except.ok ⟨true, none, .ok (.obj []), []⟩) =
      .error "Failed to parse response: missing field id") ∧
    (chat_completions "glm-4" [] false
      (fun _ => Except.ok ⟨true, none, .ok bodyMinimal, []⟩) =
      .ok minimalResponse) :=
  ⟨(c7_decode_error_not_default "glm-4" [] false
      (fun _ => Except.ok ⟨true, none, .ok (.obj []), []⟩)
      ⟨true, none, .ok (.obj []), []⟩ (fun _ => rfl) rfl).1
      "missing field id" rfl,
   (c7_decode_error_not_default "glm-4" [] false
      (fun _ => Except.ok ⟨true, none, .ok bodyMinimal, []⟩)
      ⟨true, none, .ok bodyMinimal, []⟩ (fun _ => rfl) rfl).2
      minimalResponse rfl⟩

/-- C8: a fragment-read failure fails the whole streaming loop with a
`Failed to read chunk:` transport error (lib.rs line 188), the returned
result is that error, and every update emitted by the earlier fragments is
exactly preserved in the emitted list — nothing is rolled back. -/
theorem c8_read_failure_keeps_updates (parse : String → Option StreamChunk)
    (fs1 : List (Except String String)) (e : String)
    (rest : List (Except String String))
    (h : (streamBody parse fs1).2 = .ended) :
    streamBody parse (fs1 ++ .error e :: rest) =
      ((streamBody parse fs1).1, .failed ("Failed to read chunk: " ++ e)) ∧
    streamResult (streamBody parse (fs1 ++ .error e :: rest)).2 =
      .error ("Failed to read chunk: " ++ e) := by
  have hap := streamBody_append parse fs1 (.error e :: rest) h
  rw [hap]
  constructor
  · simp [streamBody]
  · simp [streamBody, streamResult]

theorem c8_read_failure_keeps_updates_witness :
    (streamBody parseConst
      [Except.ok "data: x\n", Except.error "connection reset", Except.ok "data: y\n"] =
      ([⟨some "Hel", none, false⟩], .failed "Failed to read chunk: connection reset")) ∧
    (streamResult (streamBody parseConst
      [Except.ok "data: x\n", Except.error "connection reset", Except.ok "data: y\n"]).2 =
      .error "Failed to read chunk: connection reset") :=
  c8_read_failure_keeps_updates parseConst [Except.ok "data: x\n"]
    "connection reset" [Except.ok "data: y\n"] rfl

/-- C9: a `data:` line whose payload parses as a `StreamChunk` emits exactly
one non-terminal update built from the delta of the first choice — also when that
delta is role-only, with neither content nor reasoning_content, giving an
update with both fields absent and `done = false` — and emits nothing when
the choices list of the chunk is empty (lib.rs lines 207-217). -/
theorem c9_first_choice_delta (parse : String → Option StreamChunk)
    (line : String) (chunk : StreamChunk)
    (h1 : strStartsWith line "data: " = true)
    (h2 : strDrop line 6 ≠ "[DONE]")
    (h3 : parse (strDrop line 6) = some chunk) :
    (∀ c cs, chunk.choices = c :: cs →
      processLine parse line =
        ([⟨c.delta.content, c.delta.reasoning_content, false⟩], false)) ∧
    (chunk.choices = [] → processLine parse line = ([], false)) := by
  constructor
  · intro c cs hc
    simp [processLine, h1, h2, h3, hc]
  · intro hc
    simp [processLine, h1, h2, h3, hc]

theorem c9_first_choice_delta_witness :
    processLine parseRoleOnly "data: x" = ([⟨none, none, false⟩], false) :=
  (c9_first_choice_delta parseRoleOnly "data: x" chunkRoleOnly
    (by decide) (by decide) rfl).1
    ⟨0, ⟨some "assistant", none, none⟩, none⟩ [] rfl

/-- C10: blocking-mode decoding succeeds only when the body is an object
carrying `id`, `object`, `created`, `model` and `choices`, every decoded
choice came from an object carrying `index` and `message`, and every decoded
message from an object carrying `role` and `content`; a body omitting
`object`, or naming the timestamp `created_at` instead of `created`, fails,
while a body omitting the optional `finish_reason` and `reasoning_content`
decodes successfully. -/
theorem c10_required_fields :
    (∀ j r, ChatResponse.fromJson j = .ok r → ∃ kvs, j = .obj kvs ∧
      (Json.field kvs "id").isSome ∧ (Json.field kvs "object").isSome ∧
      (Json.field kvs "created").isSome ∧ (Json.field kvs "model").isSome ∧
      (Json.field kvs "choices").isSome) ∧
    (∀ j c, Choice.fromJson j = .ok c → ∃ kvs, j = .obj kvs ∧
      (Json.field kvs "index").isSome ∧ (Json.field kvs "message").isSome) ∧
    (∀ j m, ResponseMessage.fromJson j = .ok m → ∃ kvs, j = .obj kvs ∧
      (Json.field kvs "role").isSome ∧ (Json.field kvs "content").isSome) ∧
    ChatResponse.fromJson bodyNoObject = .error "missing field object" ∧
    ChatResponse.fromJson bodyCreatedAt = .error "missing field created" ∧
    ChatResponse.fromJson bodyMinimal = .ok minimalResponse := by
  refine ⟨?_, ?_, ?_, rfl, rfl, rfl⟩
  · intro j r h
    cases j with
    | obj kvs =>
      simp only [ChatResponse.fromJson] at h
      obtain ⟨idv, h1, h⟩ := exceptBind_ok h
      obtain ⟨objv, h2, h⟩ := exceptBind_ok h
      obtain ⟨crv, h3, h⟩ := exceptBind_ok h
      obtain ⟨mov, h4, h⟩ := exceptBind_ok h
      obtain ⟨chv, h5, h⟩ := exceptBind_ok h
      exact ⟨kvs, rfl, asStr_isSome h1, asStr_isSome h2, asU64_isSome h3,
        asStr_isSome h4, asArr_isSome h5⟩
    | null => simp [ChatResponse.fromJson] at h
    | bool b => simp [ChatResponse.fromJson] at h
    | num n => simp [ChatResponse.fromJson] at h
    | str s => simp [ChatResponse.fromJson] at h
    | arr xs => simp [ChatResponse.fromJson] at h
  · intro j c h
    cases j with
    | obj kvs =>
      simp only [Choice.fromJson] at h
      obtain ⟨idxv, h1, h⟩ := exceptBind_ok h
      refine ⟨kvs, rfl, asU32_isSome h1, ?_⟩
      cases hm : Json.field kvs "message" with
      | none =>
        rw [hm] at h
        exact absurd h (by simp [Bind.bind, Except.bind])
      | some jm => rfl
    | null => simp [Choice.fromJson] at h
    | bool b => simp [Choice.fromJson] at h
    | num n => simp [Choice.fromJson] at h
    | str s => simp [Choice.fromJson] at h
    | arr xs => simp [Choice.fromJson] at h
  · intro j m h
    cases j with
    | obj kvs =>
      simp only [ResponseMessage.fromJson] at h
      obtain ⟨rv, h1, h⟩ := exceptBind_ok h
      obtain ⟨cv, h2, h⟩ := exceptBind_ok h
      exact ⟨kvs, rfl, asStr_isSome h1, asStr_isSome h2⟩
    | null => simp [ResponseMessage.fromJson] at h
    | bool b => simp [ResponseMessage.fromJson] at h
    | num n => simp [ResponseMessage.fromJson] at h
    | str s => simp [ResponseMessage.fromJson] at h
    | arr xs => simp [ResponseMessage.fromJson] at h

theorem c10_required_fields_witness :
    ∃ kvs, bodyMinimal = Json.obj kvs ∧
      (Json.field kvs "id").isSome ∧ (Json.field kvs "object").isSome ∧
      (Json.field kvs "created").isSome ∧ (Json.field kvs "model").isSome ∧
      (Json.field kvs "choices").isSome :=
  c10_required_fields.1 bodyMinimal minimalResponse rfl

end LightFlow
